import Mathlib

/-!
# Monster Mayhem game engine — verification development

Shallow embedding of the server-side `Game` class (`game.js`): a 10×10
turn-based board game where players place and move typed monster tokens
and resolve combat on collisions.  JavaScript objects become Lean
structures; in-place mutation becomes explicit state passing (each
operation returns the successor state); JS `undefined` becomes `none`;
the `uuidv4()` fresh-id generator and the `Math.random()` tie-break of
the round re-sort are passed in as explicit parameters.
-/

abbrev PlayerId := String
abbrev MonsterId := String

/-- A monster token: `{ id, type, x, y, owner }`.  Coordinates are JS
numbers; moves may be requested with arbitrary integers, so `Int`. -/
structure Monster where
  id : MonsterId
  type : String
  x : Int
  y : Int
  owner : PlayerId
deriving Repr, DecidableEq

/-- Per-player roster entry: `{ id, edge, monsters, monstersLost }`. -/
structure Player where
  id : PlayerId
  edge : String
  monsters : List Monster
  monstersLost : Nat
deriving Repr, DecidableEq

/-- Per-player turn bookkeeping `{ placedMonster, movedMonsters }`.
`placedMonsterId` models the property of that name read (via `?.`) in
`moveMonster`; `game.js` never assigns it, so reads yield `undefined`
(`none`); it is reset to `none` (absent) by `resetTurnActions`. -/
structure TurnAction where
  placedMonster : Bool
  placedMonsterId : Option MonsterId
  movedMonsters : List MonsterId
deriving Repr, DecidableEq

/-- The board `this.board[y][x]` as a function of the two coordinates
(applied as `board x y`); cells out of 0..9 are `none` in reachable
states and all in-code reads are bounds-guarded. -/
abbrev Board := Int → Int → Option Monster

/-- Write one cell of the board (JS `this.board[y][x] = v`). -/
def setCell (b : Board) (x y : Int) (v : Option Monster) : Board :=
  fun x' y' => if x' = x ∧ y' = y then v else b x' y'

/-- The `Game` instance state. -/
structure Game where
  id : String
  players : PlayerId → Option Player
  board : Board
  playerOrder : List PlayerId
  currentPlayerIndex : Nat
  round : Nat
  availableEdges : List String
  status : String
  winner : Option PlayerId
  turnActions : PlayerId → Option TurnAction

namespace Game

/-- `getCurrentPlayer()`: `null` unless the game is active and the order
is nonempty; otherwise `playerOrder[currentPlayerIndex]` (an
out-of-range index reads as JS `undefined`, i.e. `none`). -/
def getCurrentPlayer (s : Game) : Option PlayerId :=
  if s.status ≠ "active" ∨ s.playerOrder = [] then none
  else s.playerOrder.get? s.currentPlayerIndex

/-- The edge `switch` inside `isValidPlacement`: which cells an edge
assignment claims for placement. -/
def edgeClaims (edge : String) (x y : Int) : Bool :=
  if edge = "top" then y = 0
  else if edge = "bottom" then y = 9
  else if edge = "left" then x = 0
  else if edge = "right" then x = 9
  else false

/-- `isValidPlacement(playerId, x, y)`. -/
def isValidPlacement (s : Game) (playerId : PlayerId) (x y : Int) : Bool :=
  match s.players playerId with
  | none => false
  | some player =>
    if x < 0 ∨ x > 9 ∨ y < 0 ∨ y > 9 then false
    else if (s.board x y).isSome then false
    else edgeClaims player.edge x y

/-- `isPlayerEliminated(playerId)`: absent from `players`, or
`monstersLost >= 10`. -/
def isPlayerEliminated (s : Game) (playerId : PlayerId) : Bool :=
  match s.players playerId with
  | none => true
  | some pl => decide (pl.monstersLost ≥ 10)

/-- `checkForWinner()`: the single non-eliminated player of
`playerOrder`, provided `playerOrder` still has more than one entry. -/
def checkForWinner (s : Game) : Option PlayerId :=
  let activePlayers := s.playerOrder.filter (fun pid => ! s.isPlayerEliminated pid)
  if activePlayers.length = 1 ∧ s.playerOrder.length > 1 then
    activePlayers.get? 0
  else none

/-- `endGame(winnerId = null)`: no-op once finished, else record
status/winner. -/
def endGame (s : Game) (winnerId : Option PlayerId) : Game :=
  if s.status = "finished" then s
  else { s with status := "finished", winner := winnerId }

/-- One entry of the `players` projection built by `getState`. -/
structure PlayerView where
  id : PlayerId
  edge : String
  monsterCount : Nat
  monstersLost : Nat
  isEliminated : Bool
deriving Repr, DecidableEq

/-- The snapshot object returned by `getState()`. -/
structure GameView where
  id : String
  players : PlayerId → Option PlayerView
  board : Board
  currentPlayerId : Option PlayerId
  round : Nat
  status : String
  winner : Option PlayerId
  playerOrder : List PlayerId

/-- `getState()`. -/
def getState (s : Game) : GameView :=
  { id := s.id
    players := fun pid => (s.players pid).map (fun p =>
      { id := p.id
        edge := p.edge
        monsterCount := p.monsters.length
        monstersLost := p.monstersLost
        isEliminated := s.isPlayerEliminated p.id })
    board := s.board
    currentPlayerId := s.getCurrentPlayer
    round := s.round
    status := s.status
    winner := s.winner
    playerOrder := s.playerOrder }

/-- Result of a place/move/end-turn call: the JS `{success, message}`
object paired with the (possibly updated) game state. -/
structure ActionResult where
  success : Bool
  message : String
  state : Game

/-- `placeMonster(playerId, type, x, y)`.  The fresh `uuidv4()` monster
id is passed in as `newId`.  Note the checks fire in source order:
turn, already-placed, type validity, placement validity. -/
def placeMonster (s : Game) (playerId : PlayerId) (type : String)
    (x y : Int) (newId : MonsterId) : ActionResult :=
  if s.getCurrentPlayer ≠ some playerId then
    ⟨false, "Not your turn.", s⟩
  else if ((s.turnActions playerId).map TurnAction.placedMonster).getD false then
    ⟨false, "You have already placed a monster this turn.", s⟩
  else if ¬ (["vampire", "werewolf", "ghost"].contains type) then
    ⟨false, "Invalid monster type.", s⟩
  else if ¬ s.isValidPlacement playerId x y then
    ⟨false, "Invalid position to place monster (must be on your edge and empty).", s⟩
  else
    let newMonster : Monster := ⟨newId, type, x, y, playerId⟩
    let s' : Game :=
      { s with
        players := fun q =>
          if q = playerId then
            (s.players playerId).map (fun pl =>
              { pl with monsters := pl.monsters ++ [newMonster] })
          else s.players q
        board := setCell s.board x y (some newMonster)
        turnActions := fun q =>
          if q = playerId then
            some { ((s.turnActions playerId).getD ⟨false, none, []⟩) with
                     placedMonster := true }
          else s.turnActions q }
    ⟨true, "Monster " ++ type ++ " placed.", s'⟩

/-- One iteration `i` of the path loop in `isValidMove` (`i` runs from 1
to `steps`); `true` means the iteration passes (the JS body reaches the
end or `continue`s), `false` means the body hit a `return false`.
`mx`/`my` are the monster's (unchanged) origin coordinates. -/
def moveSquareOk (s : Game) (playerId : PlayerId) (mx my stepX stepY : Int)
    (isStraight isDiagonal : Bool) (dx dy steps i : Nat) : Bool :=
  let checkX : Int :=
    if isDiagonal then mx + stepX * (min i dx : Nat)
    else mx + stepX * (if (isStraight ∧ dx > 0) ∨ isDiagonal then (i : Int) else 0)
  let checkY : Int :=
    if isDiagonal then my + stepY * (min i dy : Nat)
    else my + stepY * (if (isStraight ∧ dy > 0) ∨ isDiagonal then (i : Int) else 0)
  if checkX < 0 ∨ checkX > 9 ∨ checkY < 0 ∨ checkY > 9 then true
  else
    match s.board checkX checkY with
    | none => true
    | some squareContent =>
      if i < steps ∧ squareContent.owner = playerId then true
      else if squareContent.owner ≠ playerId then false
      else true

/-- `isValidMove(playerId, monster, newX, newY)`. -/
def isValidMove (s : Game) (playerId : PlayerId) (monster : Monster)
    (newX newY : Int) : Bool :=
  if newX < 0 ∨ newX > 9 ∨ newY < 0 ∨ newY > 9 then false
  else
    let dx := (newX - monster.x).natAbs
    let dy := (newY - monster.y).natAbs
    let isDiagonal : Bool := decide (dx > 0 ∧ dy > 0)
    let isStraight : Bool := decide ((dx > 0 ∧ dy = 0) ∨ (dx = 0 ∧ dy > 0))
    if ¬ isStraight ∧ ¬ isDiagonal then false
    else if isDiagonal ∧ (dx > 2 ∨ dy > 2) then false
    else
      let stepX := (newX - monster.x).sign
      let stepY := (newY - monster.y).sign
      let steps := max dx dy
      ((List.range steps).map (· + 1)).all
        (moveSquareOk s playerId monster.x monster.y stepX stepY
          isStraight isDiagonal dx dy steps)

/-- `removeMonster(monsterId, ownerId)`: clear the board cell the
monster's coordinates point at (only if that cell actually still holds
this monster), drop the monster from its owner's roster, and increment
the owner's `monstersLost`. -/
def removeMonster (s : Game) (monsterId : MonsterId) (ownerId : PlayerId) : Game :=
  match s.players ownerId with
  | none => s
  | some player =>
    match player.monsters.find? (fun m => m.id == monsterId) with
    | none => s
    | some monster =>
      { s with
        board :=
          if (s.board monster.x monster.y).map Monster.id = some monsterId then
            setCell s.board monster.x monster.y none
          else s.board
        players := fun q =>
          if q = ownerId then
            some { player with
                     monsters := player.monsters.eraseP (fun m => m.id == monsterId)
                     monstersLost := player.monstersLost + 1 }
          else s.players q }

/-- `handleConflict(x, y, movingPlayerId, existingMonster)`: the monster
that just arrived is read back from the board cell; same-owner identical
types remove both; distinct owners go through the fixed dominance table
(vampire beats werewolf, werewolf beats ghost, ghost beats vampire);
every other combination changes nothing. -/
def handleConflict (s : Game) (x y : Int) (movingPlayerId : PlayerId)
    (existingMonster : Monster) : Game :=
  match s.board x y with
  | none => s
  | some movingMonster =>
    if movingMonster.owner = existingMonster.owner then
      if movingMonster.type = existingMonster.type then
        removeMonster (removeMonster s movingMonster.id movingMonster.owner)
          existingMonster.id existingMonster.owner
      else s
    else
      let type1 := movingMonster.type
      let type2 := existingMonster.type
      let removedMonster : Option Monster :=
        if (type1 = "vampire" ∧ type2 = "werewolf") ∨ (type1 = "werewolf" ∧ type2 = "vampire") then
          some (if type1 = "werewolf" then movingMonster else existingMonster)
        else if (type1 = "werewolf" ∧ type2 = "ghost") ∨ (type1 = "ghost" ∧ type2 = "werewolf") then
          some (if type1 = "ghost" then movingMonster else existingMonster)
        else if (type1 = "ghost" ∧ type2 = "vampire") ∨ (type1 = "vampire" ∧ type2 = "ghost") then
          some (if type1 = "vampire" then movingMonster else existingMonster)
        else none
      match removedMonster with
      | some m => removeMonster s m.id m.owner
      | none => s

/-- The winner check at the tail of `moveMonster` (and of
`removePlayer`): `const winner = this.checkForWinner(); if (winner)
this.endGame(winner);`. -/
def resolveWinner (s : Game) : Game :=
  match s.checkForWinner with
  | some w => s.endGame (some w)
  | none => s

/-- `moveMonster(playerId, monsterId, newX, newY)`. -/
def moveMonster (s : Game) (playerId : PlayerId) (monsterId : MonsterId)
    (newX newY : Int) : ActionResult :=
  if s.getCurrentPlayer ≠ some playerId then
    ⟨false, "Not your turn.", s⟩
  else
    match s.players playerId with
    | none => ⟨false, "Monster not found.", s⟩
    | some player =>
      match player.monsters.find? (fun m => m.id == monsterId) with
      | none => ⟨false, "Monster not found.", s⟩
      | some monster =>
        -- Just-placed guard: the outer condition of the source, then the
        -- inner `placedMonsterId === monsterId` comparison (the id is
        -- never assigned by placeMonster, so the read is `undefined`).
        if (((s.turnActions playerId).map TurnAction.placedMonster).getD false
              ∧ (s.board monster.x monster.y).map Monster.id = some monsterId)
            ∧ ((s.turnActions playerId).bind TurnAction.placedMonsterId = some monsterId) then
          ⟨false, "You cannot move the monster you just placed this turn.", s⟩
        else if ((s.turnActions playerId).map
              (fun ta => ta.movedMonsters.contains monsterId)).getD false then
          ⟨false, "This monster has already moved this turn.", s⟩
        else if ¬ s.isValidMove playerId monster newX newY then
          ⟨false, "Invalid move (distance, obstacle, or out of bounds).", s⟩
        else
          let oldX := monster.x
          let oldY := monster.y
          let destinationContent := s.board newX newY
          let moved : Monster := { monster with x := newX, y := newY }
          let s1 : Game :=
            { s with
              board := setCell (setCell s.board oldX oldY none) newX newY (some moved)
              players := fun q =>
                if q = playerId then
                  some { player with
                           monsters := player.monsters.set
                             (player.monsters.findIdx (fun m => m.id == monsterId)) moved }
                else s.players q
              turnActions := fun q =>
                if q = playerId then
                  some { ((s.turnActions playerId).getD ⟨false, none, []⟩) with
                           movedMonsters :=
                             ((s.turnActions playerId).getD ⟨false, none, []⟩).movedMonsters.insert monsterId }
                else s.turnActions q }
          let s2 : Game :=
            match destinationContent with
            | some existing => handleConflict s1 newX newY playerId existing
            | none => s1
          let s3 := resolveWinner s2
          ⟨true, "Monster moved.", s3⟩

/-- `resetTurnActions(playerId = null)`: with a player id, reset that
player's entry to `{ placedMonster: false, movedMonsters: new Set() }`
(no `placedMonsterId` property is created, so it reads as `none`); with
`null`, reset the entry of every player in `playerOrder`. -/
def resetTurnActions (s : Game) (playerId : Option PlayerId) : Game :=
  match playerId with
  | some pid =>
    { s with turnActions := fun q =>
        if q = pid then some ⟨false, none, []⟩ else s.turnActions q }
  | none =>
    { s with turnActions := fun q =>
        if s.playerOrder.contains q then some ⟨false, none, []⟩ else s.turnActions q }

/-- The monster count used by the round-boundary comparator:
`this.players[a] ? this.players[a].monsters.length : Infinity`
(`none` = `Infinity`). -/
def monsterCount (s : Game) (pid : PlayerId) : Option Nat :=
  (s.players pid).map (fun p => p.monsters.length)

/-- One comparator call of the round-boundary
`playerOrder.sort((a, b) => ...)`: `true` when the comparator answers
"a before b" (negative).  Equal counts (including `Infinity ===
Infinity`) fall to the `Math.random() - 0.5` tie-break, abstracted as
the oracle `r`. -/
def orderBefore (s : Game) (r : PlayerId → PlayerId → Bool) (a b : PlayerId) : Bool :=
  match monsterCount s a, monsterCount s b with
  | some ca, some cb => if ca = cb then r a b else decide (ca < cb)
  | some _, none => true
  | none, some _ => false
  | none, none => r a b

/-- Insert into a sorted prefix, comparator-first (the host engine's
comparison sort of `Array.prototype.sort` modelled as insertion sort). -/
def insertBefore (le : PlayerId → PlayerId → Bool) (a : PlayerId) :
    List PlayerId → List PlayerId
  | [] => [a]
  | b :: l => if le a b then a :: b :: l else b :: insertBefore le a l

/-- The round-boundary sort of `playerOrder`. -/
def sortPlayers (le : PlayerId → PlayerId → Bool) : List PlayerId → List PlayerId
  | [] => []
  | a :: l => insertBefore le a (sortPlayers le l)

/-- Loop condition of the skip-eliminated `while` in `endTurn`
(`isPlayerEliminated(getCurrentPlayer())`: a `null` current player reads
`players[null]` as `undefined`, hence eliminated). -/
def currentEliminated (s : Game) : Bool :=
  match s.getCurrentPlayer with
  | none => true
  | some p => s.isPlayerEliminated p

/-- The skip-eliminated `while` loop of `endTurn`, with explicit fuel
(the loop provably exits within `2·|playerOrder| + 2` iterations; the
fuel-out branch is unreachable under that fuel).  The `Bool` is `true`
when the loop hit one of its `return` statements (game ended). -/
def skipLoop : Nat → Game → Game × Bool
  | 0, s => (s, false)
  | fuel + 1, s =>
    if currentEliminated s ∧ s.status = "active" then
      let s1 := { s with currentPlayerIndex := (s.currentPlayerIndex + 1) % s.playerOrder.length }
      if s1.currentPlayerIndex = 0 then
        match s1.checkForWinner with
        | some w => (s1.endGame (some w), true)
        | none =>
          if (s1.playerOrder.filter (fun pid => ! s1.isPlayerEliminated pid)).length = 0 then
            (s1.endGame none, true)
          else skipLoop fuel s1
      else skipLoop fuel s1
    else (s, false)

/-- `endTurn(playerId)`, with the random tie-break oracle `r` made
explicit. -/
def endTurn (s : Game) (playerId : PlayerId) (r : PlayerId → PlayerId → Bool) :
    ActionResult :=
  if s.getCurrentPlayer ≠ some playerId then
    ⟨false, "Not your turn.", s⟩
  else
    let advanced := (s.currentPlayerIndex + 1) % s.playerOrder.length
    let s1 : Game :=
      if advanced = 0 then
        { s with
          round := s.round + 1
          playerOrder := sortPlayers (orderBefore s r) s.playerOrder
          currentPlayerIndex := 0 }
      else { s with currentPlayerIndex := advanced }
    let (s2, ended) := skipLoop (2 * s1.playerOrder.length + 2) s1
    if ended then ⟨true, "Turn ended.", s2⟩
    else ⟨true, "Turn ended.", resetTurnActions s2 s2.getCurrentPlayer⟩

end Game

/-- Modelled from the spec: the fixed cyclic-dominance table — "Type1
(vampire) vs Type2 (werewolf) removes the Type2 instance, Type2 vs Type3
(ghost) removes the Type3 instance, Type3 vs Type1 removes the Type1
instance" — as the type of the losing instance (`none` when the pair is
not two distinct types of the game).  Used to compare the spec's table
against `handleConflict`. -/
def specCombatLoser (t1 t2 : String) : Option String :=
  if (t1 = "vampire" ∧ t2 = "werewolf") ∨ (t1 = "werewolf" ∧ t2 = "vampire") then
    some "werewolf"
  else if (t1 = "werewolf" ∧ t2 = "ghost") ∨ (t1 = "ghost" ∧ t2 = "werewolf") then
    some "ghost"
  else if (t1 = "ghost" ∧ t2 = "vampire") ∨ (t1 = "vampire" ∧ t2 = "ghost") then
    some "vampire"
  else none

/-- Order on the comparator keys of the round-boundary sort: finite
counts ascending, `none` (= `Infinity`, a vanished player) last. -/
def keyLe : Option Nat → Option Nat → Prop
  | some a, some b => a ≤ b
  | some _, none => True
  | none, some _ => False
  | none, none => True

instance : DecidableRel keyLe := fun a b => by
  cases a <;> cases b <;> simp only [keyLe] <;> infer_instance

/-- "`a`'s live token count is at most `b`'s" — the ascending order the
round-boundary re-sort is claimed to establish. -/
def countLe (s : Game) (a b : PlayerId) : Prop :=
  keyLe (Game.monsterCount s a) (Game.monsterCount s b)

/-! ## Concrete session states used by the theorems below -/

/-- The all-empty board. -/
def emptyBoard : Board := fun _ _ => none

/-- Build the `players` object from a finite list. -/
def playersOf (l : List Player) : PlayerId → Option Player :=
  fun pid => l.find? (fun p => p.id == pid)

/-- Build the `turnActions` object from a finite list. -/
def turnActionsOf (l : List (PlayerId × TurnAction)) : PlayerId → Option TurnAction :=
  fun pid => (l.find? (fun e => e.1 == pid)).map Prod.snd

/-- A deterministic stand-in for the `Math.random()` tie-break oracle
(never used on the states below, whose counts are distinct). -/
def rconst : PlayerId → PlayerId → Bool := fun _ _ => false

def c1Vamp : Monster := ⟨"m1", "vampire", 0, 0, "A"⟩
def c1Wolf : Monster := ⟨"m2", "werewolf", 0, 1, "B"⟩
def c1OwnGhost : Monster := ⟨"m3", "ghost", 0, 1, "A"⟩

/-- Active 2-player session; A (top) has a vampire on (0,0), B (bottom)
has a werewolf on (0,1), directly in front of it. -/
def sEnemyAhead : Game :=
  { id := "g1"
    players := playersOf [⟨"A", "top", [c1Vamp], 0⟩, ⟨"B", "bottom", [c1Wolf], 0⟩]
    board := setCell (setCell emptyBoard 0 0 (some c1Vamp)) 0 1 (some c1Wolf)
    playerOrder := ["A", "B"]
    currentPlayerIndex := 0
    round := 1
    availableEdges := ["left", "right"]
    status := "active"
    winner := none
    turnActions := turnActionsOf [("A", ⟨false, none, []⟩), ("B", ⟨false, none, []⟩)] }

/-- Same session but the square in front of A's vampire holds A's own
ghost instead. -/
def sOwnAhead : Game :=
  { sEnemyAhead with
    players := playersOf [⟨"A", "top", [c1Vamp, c1OwnGhost], 0⟩, ⟨"B", "bottom", [], 0⟩]
    board := setCell (setCell emptyBoard 0 0 (some c1Vamp)) 0 1 (some c1OwnGhost) }

def c2MoverVamp : Monster := ⟨"m1", "vampire", 3, 3, "A"⟩
def c2ExistVamp : Monster := ⟨"m2", "vampire", 3, 3, "B"⟩

/-- The state `handleConflict` sees right after A's vampire has been
moved onto (3,3): the board cell holds the arriving vampire, while B's
identically-typed vampire (still at coordinates (3,3)) only survives in
B's roster. -/
def sSameTypeClash : Game :=
  { id := "g2"
    players := playersOf [⟨"A", "top", [c2MoverVamp], 0⟩, ⟨"B", "bottom", [c2ExistVamp], 0⟩]
    board := setCell emptyBoard 3 3 (some c2MoverVamp)
    playerOrder := ["A", "B"]
    currentPlayerIndex := 0
    round := 1
    availableEdges := ["left", "right"]
    status := "active"
    winner := none
    turnActions := turnActionsOf [("A", ⟨false, none, ["m1"]⟩), ("B", ⟨false, none, []⟩)] }

def c3MoverVamp : Monster := ⟨"m1", "vampire", 3, 3, "A"⟩
def c3ExistGhost : Monster := ⟨"m2", "ghost", 3, 3, "B"⟩

/-- As `sSameTypeClash`, but the defending monster is B's ghost: the
arriving vampire is the dominated (losing) type. -/
def sGhostDefends : Game :=
  { sSameTypeClash with
    players := playersOf [⟨"A", "top", [c3MoverVamp], 0⟩, ⟨"B", "bottom", [c3ExistGhost], 0⟩]
    board := setCell emptyBoard 3 3 (some c3MoverVamp) }

/-- A fresh active 2-player session with an empty board, A (top edge) to
play. -/
def sFresh : Game :=
  { id := "g4"
    players := playersOf [⟨"A", "top", [], 0⟩, ⟨"B", "bottom", [], 0⟩]
    board := emptyBoard
    playerOrder := ["A", "B"]
    currentPlayerIndex := 0
    round := 1
    availableEdges := ["left", "right"]
    status := "active"
    winner := none
    turnActions := turnActionsOf [("A", ⟨false, none, []⟩), ("B", ⟨false, none, []⟩)] }

def c6Vamp : Monster := ⟨"m1", "vampire", 0, 0, "A"⟩

/-- Round-boundary scenario: B (to play, index 1) is about to end the
turn; A placed a monster earlier in the round, so A's `placedMonster`
flag is still set; A has one monster, B none. -/
def sRoundEnd : Game :=
  { id := "g6"
    players := playersOf [⟨"A", "top", [c6Vamp], 0⟩, ⟨"B", "bottom", [], 0⟩]
    board := setCell emptyBoard 0 0 (some c6Vamp)
    playerOrder := ["A", "B"]
    currentPlayerIndex := 1
    round := 1
    availableEdges := ["left", "right"]
    status := "active"
    winner := none
    turnActions := turnActionsOf [("A", ⟨true, none, []⟩), ("B", ⟨false, none, []⟩)] }

/-- Waiting 2-player session, A on the top edge and B on the left edge,
empty board. -/
def sCorner : Game :=
  { id := "g7"
    players := playersOf [⟨"A", "top", [], 0⟩, ⟨"B", "left", [], 0⟩]
    board := emptyBoard
    playerOrder := ["A", "B"]
    currentPlayerIndex := 0
    round := 1
    availableEdges := ["bottom", "right"]
    status := "active"
    winner := none
    turnActions := turnActionsOf [("A", ⟨false, none, []⟩), ("B", ⟨false, none, []⟩)] }

def c9MonA : Monster := ⟨"mA", "vampire", 0, 3, "A"⟩
def c9MonB : Monster := ⟨"mB", "ghost", 9, 4, "B"⟩

/-- Elimination-threshold scenario: A has already lost 9 monsters and
keeps a single one on the board; B is healthy. -/
def sNineLost : Game :=
  { id := "g9"
    players := playersOf [⟨"A", "top", [c9MonA], 9⟩, ⟨"B", "bottom", [c9MonB], 0⟩]
    board := setCell (setCell emptyBoard 0 3 (some c9MonA)) 9 4 (some c9MonB)
    playerOrder := ["A", "B"]
    currentPlayerIndex := 0
    round := 3
    availableEdges := ["left", "right"]
    status := "active"
    winner := none
    turnActions := turnActionsOf [("A", ⟨false, none, []⟩), ("B", ⟨false, none, []⟩)] }

/-- A (current player) has already placed a monster this turn. -/
def sAlreadyPlaced : Game :=
  { sFresh with
    turnActions := turnActionsOf [("A", ⟨true, none, []⟩), ("B", ⟨false, none, []⟩)] }

/-! ## C1 — destination handling of `isValidMove` -/

/-- C1: the claim's destination rule is inverted in `isValidMove`.  For
A's vampire on (0,0) facing B's werewolf on (0,1), the one-step straight
move onto the enemy square is rejected (the claim says an
enemy-occupied destination is legal and triggers combat); with A's own
ghost on (0,1) instead, the same move is accepted (the claim says
landing on an own token is illegal).  Intermediate-square behaviour is
not at issue: both walks consist of the destination square only. -/
theorem isValidMove_destination_eval :
    Game.isValidMove sEnemyAhead "A" c1Vamp 0 1 = false
    ∧ Game.isValidMove sOwnAhead "A" c1Vamp 0 1 = true := by
  decide

/-! ## C2 — identical-type combat across owners -/

/-- C2: when A's vampire lands on B's vampire (identical types, distinct
owners), `handleConflict` removes nothing: the state is returned
unchanged, so neither token is removed and no loss count moves — the
claim's "both removed regardless of owners" fails for distinct owners
(only the same-owner identical-type branch removes both). -/
theorem handleConflict_sameType_crossOwner_eval :
    Game.handleConflict sSameTypeClash 3 3 "A" c2ExistVamp = sSameTypeClash := by
  rfl

/-! ## C3 — cyclic dominance and the contested square -/

/-- C3 counterexample: ghost (B, defending) versus arriving vampire (A).
The dominated vampire is correctly removed (A's loss count becomes 1,
B's ghost survives in B's roster with B's count untouched), but the
contested cell (3,3) ends up *empty*: removing the arriving loser clears
the cell and the winning ghost is never put back, so the claim's "the
winning token remains on the contested square" is false. -/
theorem handleConflict_moverLoses_cell_cleared :
    (Game.handleConflict sGhostDefends 3 3 "A" c3ExistGhost).board 3 3 = none
    ∧ ((Game.handleConflict sGhostDefends 3 3 "A" c3ExistGhost).players "A").map
        Player.monstersLost = some 1
    ∧ ((Game.handleConflict sGhostDefends 3 3 "A" c3ExistGhost).players "B").map
        Player.monsters = some [c3ExistGhost]
    ∧ ((Game.handleConflict sGhostDefends 3 3 "A" c3ExistGhost).players "B").map
        Player.monstersLost = some 0 := by
  decide

/-! ## C4 — moving the monster placed this turn -/

/-- C4: `placeMonster` never assigns `turnActions[p].placedMonsterId`,
so the guard `placedMonsterId === monsterId` in `moveMonster` compares
`undefined` with the id and never fires: the monster a player just
placed CAN be moved in the same turn.  Here A places a vampire on (0,0)
and immediately moves it to (0,1); both calls succeed and the board
shows the token on (0,1). -/
theorem moveJustPlaced_allowed_eval :
    (Game.placeMonster sFresh "A" "vampire" 0 0 "m1").success = true
    ∧ (Game.moveMonster (Game.placeMonster sFresh "A" "vampire" 0 0 "m1").state
        "A" "m1" 0 1).success = true
    ∧ ((Game.moveMonster (Game.placeMonster sFresh "A" "vampire" 0 0 "m1").state
        "A" "m1" 0 1).state.board 0 1).map Monster.id = some "m1" := by
  decide

/-! ## C6 — what a round boundary resets -/

/-- C6 counterexample: B ends the turn from index 1 of a 2-player order,
so the index wraps to 0 (a round boundary).  The call succeeds, the
round counter increments, yet A's `placedMonster` flag is still set
afterwards: only the new current player's TurnAction is reset, not
"every player's TurnAction" as the claim states. -/
theorem endTurn_roundBoundary_stale_turnAction :
    (Game.endTurn sRoundEnd "B" rconst).success = true
    ∧ (sRoundEnd.currentPlayerIndex + 1) % sRoundEnd.playerOrder.length = 0
    ∧ (Game.endTurn sRoundEnd "B" rconst).state.round = sRoundEnd.round + 1
    ∧ ((Game.endTurn sRoundEnd "B" rconst).state.turnActions "A").map
        TurnAction.placedMonster = some true := by
  decide

/-! ## C7 — which edges claim the corner (0,0) -/

/-- C7 counterexample: the corner cell (0,0) satisfies both the `top`
predicate (y = 0) and the `left` predicate (x = 0), so two of the four
edge predicates claim it, not "exactly one"; accordingly, with A on the
top edge and B on the left edge and the cell empty, placement on
(0,0) is legal for both players. -/
theorem corner_two_edges_claim :
    Game.edgeClaims "top" 0 0 = true
    ∧ Game.edgeClaims "left" 0 0 = true
    ∧ Game.isValidPlacement sCorner "A" 0 0 = true
    ∧ Game.isValidPlacement sCorner "B" 0 0 = true := by
  decide

/-! ## C10 — failure reason for an invalid monster type -/

/-- C10 counterexample: the already-placed guard precedes the type
check, so the current player who has already placed this turn and now
submits the invalid type "dragon" is rejected with the already-placed
reason, not "Invalid monster type." (the state is still unchanged). -/
theorem placeMonster_invalidType_message_mismatch :
    (Game.placeMonster sAlreadyPlaced "A" "dragon" 0 5 "m9").message
      = "You have already placed a monster this turn."
    ∧ (Game.placeMonster sAlreadyPlaced "A" "dragon" 0 5 "m9").message
      ≠ "Invalid monster type."
    ∧ (Game.placeMonster sAlreadyPlaced "A" "dragon" 0 5 "m9").success = false
    ∧ (Game.placeMonster sAlreadyPlaced "A" "dragon" 0 5 "m9").state = sAlreadyPlaced := by
  exact ⟨by decide, by decide, by decide, rfl⟩

/-- C10 amended: when the current player has not yet placed this turn,
`placeMonster` with a type outside {vampire, werewolf, ghost} fails
exactly with "Invalid monster type." and returns the state unchanged
(so no monster with an invalid type is ever created). -/
theorem placeMonster_invalidType (s : Game) (p : PlayerId) (ty : String)
    (x y : Int) (nid : MonsterId)
    (hcur : s.getCurrentPlayer = some p)
    (hnp : ((s.turnActions p).map TurnAction.placedMonster).getD false = false)
    (hty : (["vampire", "werewolf", "ghost"].contains ty) = false) :
    Game.placeMonster s p ty x y nid = ⟨false, "Invalid monster type.", s⟩ := by
  unfold Game.placeMonster
  rw [if_neg (by simp [hcur]), if_neg (by simp [hnp]), if_pos (by simp_all)]

/-- C10 amended, witness: `sFresh` with the bogus type "dragon". -/
theorem placeMonster_invalidType_witness :
    (sFresh.getCurrentPlayer = some "A"
      ∧ ((sFresh.turnActions "A").map TurnAction.placedMonster).getD false = false
      ∧ (["vampire", "werewolf", "ghost"].contains "dragon") = false)
    ∧ Game.placeMonster sFresh "A" "dragon" 7 7 "m9"
        = ⟨false, "Invalid monster type.", sFresh⟩ :=
  ⟨⟨by decide, by decide, by decide⟩,
   placeMonster_invalidType sFresh "A" "dragon" 7 7 "m9"
     (by decide) (by decide) (by decide)⟩

/-! ## C5 — wrong-turn rejection of place / move / end-turn -/

/-- C5: any caller `p` other than `playerOrder[currentPlayerIndex]` gets
"Not your turn." from `placeMonster`, `moveMonster` and `endTurn`, with
the entire session state returned unchanged (so the snapshot, board,
rosters and turn bookkeeping are all untouched). -/
theorem notYourTurn_rejected (s : Game) (p : PlayerId) (ty : String)
    (x y : Int) (mid nid : MonsterId) (r : PlayerId → PlayerId → Bool)
    (h : s.playerOrder.get? s.currentPlayerIndex ≠ some p) :
    Game.placeMonster s p ty x y nid = ⟨false, "Not your turn.", s⟩
    ∧ Game.moveMonster s p mid x y = ⟨false, "Not your turn.", s⟩
    ∧ Game.endTurn s p r = ⟨false, "Not your turn.", s⟩ := by
  have hcur : s.getCurrentPlayer ≠ some p := by
    unfold Game.getCurrentPlayer
    split
    · simp
    · exact h
  refine ⟨?_, ?_, ?_⟩
  · unfold Game.placeMonster; rw [if_pos hcur]
  · unfold Game.moveMonster; rw [if_pos hcur]
  · unfold Game.endTurn; rw [if_pos hcur]

/-- C5 witness: in `sFresh` it is A's turn, so B is rejected by all
three operations. -/
theorem notYourTurn_rejected_witness :
    sFresh.playerOrder.get? sFresh.currentPlayerIndex ≠ some "B"
    ∧ (Game.placeMonster sFresh "B" "vampire" 9 9 "m7" = ⟨false, "Not your turn.", sFresh⟩
       ∧ Game.moveMonster sFresh "B" "m7" 9 8 = ⟨false, "Not your turn.", sFresh⟩
       ∧ Game.endTurn sFresh "B" rconst = ⟨false, "Not your turn.", sFresh⟩) :=
  ⟨by decide,
   notYourTurn_rejected sFresh "B" "vampire" 9 9 "m7" "m7" rconst (by decide)⟩

/-! ## C8 — `endGame` is idempotent -/

/-- `endGame` on an already-finished session changes nothing. -/
theorem endGame_noop_of_finished (s : Game) (w : Option PlayerId)
    (h : s.status = "finished") : s.endGame w = s := by
  unfold Game.endGame; rw [if_pos h]

/-- `endGame` on a non-finished session records status and winner. -/
theorem endGame_sets (s : Game) (w : Option PlayerId) (h : s.status ≠ "finished") :
    s.endGame w = { s with status := "finished", winner := w } := by
  unfold Game.endGame; rw [if_neg h]

/-- C8: on a non-finished session `endGame` records status "finished"
and the supplied winner (or `none` for a draw/abort), and any further
`endGame` call — whatever winner it carries — is a no-op: the state and
therefore the `getState` snapshot are unchanged. -/
theorem endGame_sets_and_idempotent (s : Game) (w w' : Option PlayerId)
    (h : s.status ≠ "finished") :
    (s.endGame w).status = "finished"
    ∧ (s.endGame w).winner = w
    ∧ (s.endGame w).endGame w' = s.endGame w
    ∧ Game.getState ((s.endGame w).endGame w') = Game.getState (s.endGame w) := by
  have h1 : s.endGame w = { s with status := "finished", winner := w } := endGame_sets s w h
  have h2 : (s.endGame w).status = "finished" := by rw [h1]
  refine ⟨h2, by rw [h1], endGame_noop_of_finished _ w' h2, ?_⟩
  rw [endGame_noop_of_finished _ w' h2]

/-- C8 witness: ending the active session `sFresh` with winner A, then
ending it again with `none`. -/
theorem endGame_sets_and_idempotent_witness :
    sFresh.status ≠ "finished"
    ∧ ((sFresh.endGame (some "A")).status = "finished"
       ∧ (sFresh.endGame (some "A")).winner = some "A"
       ∧ (sFresh.endGame (some "A")).endGame none = sFresh.endGame (some "A")
       ∧ Game.getState ((sFresh.endGame (some "A")).endGame none)
           = Game.getState (sFresh.endGame (some "A"))) :=
  ⟨by decide, endGame_sets_and_idempotent sFresh (some "A") none (by decide)⟩

/-! ## C9 — elimination at 10 lost tokens and the winner check -/

/-- C9: a present player is eliminated exactly when `monstersLost ≥ 10`;
removing a monster of a player with 9 losses (not yet eliminated) takes
them to 10 and eliminates them, and when that leaves `[q]` as the
non-eliminated players of a still multi-entry `playerOrder`, the winner
check run at the tail of every successful move returns `q` and finishes
the session with `q` recorded as winner. -/
theorem elimination_threshold_winner (s : Game) (p q : PlayerId) (pl : Player)
    (m : Monster) (mid : MonsterId)
    (hp : s.players p = some pl)
    (hfind : pl.monsters.find? (fun mm => mm.id == mid) = some m)
    (hlost : pl.monstersLost = 9)
    (hstat : s.status = "active")
    (hact : ((Game.removeMonster s mid p).playerOrder.filter
        (fun pid => ! (Game.removeMonster s mid p).isPlayerEliminated pid)) = [q])
    (hlen : 1 < (Game.removeMonster s mid p).playerOrder.length) :
    s.isPlayerEliminated p = false
    ∧ ((Game.removeMonster s mid p).players p).map Player.monstersLost = some 10
    ∧ (Game.removeMonster s mid p).isPlayerEliminated p = true
    ∧ (Game.removeMonster s mid p).checkForWinner = some q
    ∧ (Game.resolveWinner (Game.removeMonster s mid p)).status = "finished"
    ∧ (Game.resolveWinner (Game.removeMonster s mid p)).winner = some q := by
  have hrm : Game.removeMonster s mid p
      = { s with
          board :=
            if (s.board m.x m.y).map Monster.id = some mid then
              setCell s.board m.x m.y none
            else s.board
          players := fun q' =>
            if q' = p then
              some { pl with
                       monsters := pl.monsters.eraseP (fun mm => mm.id == mid)
                       monstersLost := pl.monstersLost + 1 }
            else s.players q' } := by
    simp only [Game.removeMonster, hp, hfind]
  have hpl : (Game.removeMonster s mid p).players p
      = some { pl with
                 monsters := pl.monsters.eraseP (fun mm => mm.id == mid)
                 monstersLost := pl.monstersLost + 1 } := by
    rw [hrm]; simp
  have h0 : s.isPlayerEliminated p = false := by
    simp [Game.isPlayerEliminated, hp, hlost]
  have h1 : ((Game.removeMonster s mid p).players p).map Player.monstersLost = some 10 := by
    rw [hpl]; simp [hlost]
  have h2 : (Game.removeMonster s mid p).isPlayerEliminated p = true := by
    simp [Game.isPlayerEliminated, hpl, hlost]
  have h3 : (Game.removeMonster s mid p).checkForWinner = some q := by
    simp only [Game.checkForWinner, hact]
    simp [hlen]
  have h4 : (Game.removeMonster s mid p).status = "active" := by rw [hrm]; exact hstat
  have h5 : Game.resolveWinner (Game.removeMonster s mid p)
      = { Game.removeMonster s mid p with status := "finished", winner := some q } := by
    simp only [Game.resolveWinner, h3]
    exact endGame_sets _ _ (by rw [h4]; decide)
  exact ⟨h0, h1, h2, h3, by rw [h5], by rw [h5]⟩

/-- C9 witness: in `sNineLost`, A is on 9 losses; removing A's last
monster `mA` eliminates A and B wins, finishing the session. -/
theorem elimination_threshold_winner_witness :
    (sNineLost.players "A" = some ⟨"A", "top", [c9MonA], 9⟩
      ∧ (Player.mk "A" "top" [c9MonA] 9).monsters.find? (fun mm => mm.id == "mA") = some c9MonA
      ∧ (Player.mk "A" "top" [c9MonA] 9).monstersLost = 9
      ∧ sNineLost.status = "active"
      ∧ ((Game.removeMonster sNineLost "mA" "A").playerOrder.filter
          (fun pid => ! (Game.removeMonster sNineLost "mA" "A").isPlayerEliminated pid)) = ["B"]
      ∧ 1 < (Game.removeMonster sNineLost "mA" "A").playerOrder.length)
    ∧ (sNineLost.isPlayerEliminated "A" = false
       ∧ ((Game.removeMonster sNineLost "mA" "A").players "A").map Player.monstersLost = some 10
       ∧ (Game.removeMonster sNineLost "mA" "A").isPlayerEliminated "A" = true
       ∧ (Game.removeMonster sNineLost "mA" "A").checkForWinner = some "B"
       ∧ (Game.resolveWinner (Game.removeMonster sNineLost "mA" "A")).status = "finished"
       ∧ (Game.resolveWinner (Game.removeMonster sNineLost "mA" "A")).winner = some "B") :=
  ⟨⟨by decide, by decide, by decide, by decide, by decide, by decide⟩,
   elimination_threshold_winner sNineLost "A" "B" ⟨"A", "top", [c9MonA], 9⟩ c9MonA "mA"
     (by decide) (by decide) (by decide) (by decide) (by decide) (by decide)⟩

/-! ## C7 amended — the corner belongs to two edges -/

/-- The edge predicate at the corner cell: exactly the `top` and `left`
edges claim (0,0). -/
theorem edgeClaims_corner (e : String) :
    Game.edgeClaims e 0 0 = (e == "top" || e == "left") := by
  unfold Game.edgeClaims
  by_cases h1 : e = "top"
  · subst h1; decide
  · by_cases h2 : e = "bottom"
    · subst h2; decide
    · by_cases h3 : e = "left"
      · subst h3; decide
      · by_cases h4 : e = "right"
        · subst h4; decide
        · simp [h1, h2, h3, h4]

/-- C7 amended: two edge predicates (top and left) claim the corner
(0,0), and a present player may place there exactly when the cell is
empty and their edge is `top` or `left`. -/
theorem placement_corner_rule (s : Game) (p : PlayerId) (pl : Player)
    (hp : s.players p = some pl) :
    Game.isValidPlacement s p 0 0
      = ((s.board 0 0).isNone && (pl.edge == "top" || pl.edge == "left"))
    ∧ (["top", "bottom", "left", "right"].filter (fun e => Game.edgeClaims e 0 0))
      = ["top", "left"] := by
  refine ⟨?_, by decide⟩
  cases hgb : s.board 0 0 with
  | some mon => simp [Game.isValidPlacement, hp, hgb]
  | none => simp [Game.isValidPlacement, hp, hgb, edgeClaims_corner]

/-! ## Sorting lemmas for the round-boundary re-sort -/

/-- Inserting is a permutation of consing. -/
theorem insertBefore_perm (le : PlayerId → PlayerId → Bool) (a : PlayerId)
    (l : List PlayerId) : (Game.insertBefore le a l).Perm (a :: l) := by
  induction l with
  | nil => exact List.Perm.refl _
  | cons b t ih =>
    unfold Game.insertBefore
    by_cases h : le a b
    · rw [if_pos h]
    · rw [if_neg h]
      exact (ih.cons b).trans (List.Perm.swap a b t)

/-- The comparator-driven insertion keeps `R`-pairwise-sortedness, for
any transitive `R` the comparator is compatible with. -/
theorem insertBefore_pairwise (le : PlayerId → PlayerId → Bool)
    (R : PlayerId → PlayerId → Prop)
    (h1 : ∀ x y, le x y = true → R x y)
    (h2 : ∀ x y, le x y = false → R y x)
    (htrans : ∀ x y z, R x y → R y z → R x z)
    (a : PlayerId) (l : List PlayerId) (hl : l.Pairwise R) :
    (Game.insertBefore le a l).Pairwise R := by
  induction l with
  | nil => simp [Game.insertBefore]
  | cons b t ih =>
    rw [List.pairwise_cons] at hl
    obtain ⟨hbt, ht⟩ := hl
    unfold Game.insertBefore
    cases h : le a b with
    | true =>
      rw [if_pos rfl]
      refine List.Pairwise.cons ?_ (List.Pairwise.cons hbt ht)
      intro c hc
      rcases List.mem_cons.mp hc with rfl | hc
      · exact h1 a c h
      · exact htrans a b c (h1 a b h) (hbt c hc)
    | false =>
      rw [if_neg Bool.false_ne_true]
      refine List.Pairwise.cons ?_ (ih ht)
      intro c hc
      rcases List.mem_cons.mp ((insertBefore_perm le a t).mem_iff.mp hc) with rfl | hc
      · exact h2 c b h
      · exact hbt c hc

/-- The round-boundary sort permutes `playerOrder`. -/
theorem sortPlayers_perm (le : PlayerId → PlayerId → Bool) (l : List PlayerId) :
    (Game.sortPlayers le l).Perm l := by
  induction l with
  | nil => exact List.Perm.refl _
  | cons a t ih =>
    unfold Game.sortPlayers
    exact (insertBefore_perm le a _).trans (ih.cons a)

/-- The round-boundary sort produces an `R`-pairwise-sorted list. -/
theorem sortPlayers_pairwise (le : PlayerId → PlayerId → Bool)
    (R : PlayerId → PlayerId → Prop)
    (h1 : ∀ x y, le x y = true → R x y)
    (h2 : ∀ x y, le x y = false → R y x)
    (htrans : ∀ x y z, R x y → R y z → R x z)
    (l : List PlayerId) : (Game.sortPlayers le l).Pairwise R := by
  induction l with
  | nil => simp [Game.sortPlayers]
  | cons a t ih =>
    unfold Game.sortPlayers
    exact insertBefore_pairwise le R h1 h2 htrans a _ ih

/-- A comparator answer "a first" means a's count key is at most b's. -/
theorem orderBefore_true_countLe (s : Game) (r : PlayerId → PlayerId → Bool)
    (a b : PlayerId) (h : Game.orderBefore s r a b = true) : countLe s a b := by
  unfold Game.orderBefore at h
  unfold countLe
  cases ha : Game.monsterCount s a with
  | none =>
    cases hb : Game.monsterCount s b with
    | none => trivial
    | some cb =>
      rw [ha, hb] at h
      change false = true at h
      exact absurd h Bool.false_ne_true
  | some ca =>
    cases hb : Game.monsterCount s b with
    | none => trivial
    | some cb =>
      rw [ha, hb] at h
      change (if ca = cb then r a b else decide (ca < cb)) = true at h
      show ca ≤ cb
      by_cases hc : ca = cb
      · exact le_of_eq hc
      · rw [if_neg hc] at h
        exact le_of_lt (of_decide_eq_true h)

/-- A comparator answer "b first" means b's count key is at most a's. -/
theorem orderBefore_false_countLe (s : Game) (r : PlayerId → PlayerId → Bool)
    (a b : PlayerId) (h : Game.orderBefore s r a b = false) : countLe s b a := by
  unfold Game.orderBefore at h
  unfold countLe
  cases ha : Game.monsterCount s a with
  | none =>
    cases hb : Game.monsterCount s b with
    | none => trivial
    | some cb => trivial
  | some ca =>
    cases hb : Game.monsterCount s b with
    | none =>
      rw [ha, hb] at h
      change true = false at h
      exact absurd h (by decide)
    | some cb =>
      rw [ha, hb] at h
      change (if ca = cb then r a b else decide (ca < cb)) = false at h
      show cb ≤ ca
      by_cases hc : ca = cb
      · exact le_of_eq hc.symm
      · rw [if_neg hc] at h
        have := of_decide_eq_false h
        omega

/-- `keyLe` is transitive. -/
theorem keyLe_trans (x y z : Option Nat) (h1 : keyLe x y) (h2 : keyLe y z) :
    keyLe x z := by
  cases x <;> cases y <;> cases z <;> simp [keyLe] at * <;> omega

/-- `countLe` is transitive. -/
theorem countLe_trans (s : Game) (a b c : PlayerId)
    (hab : countLe s a b) (hbc : countLe s b c) : countLe s a c :=
  keyLe_trans _ _ _ hab hbc

/-! ## `endTurn` helper lemmas -/

/-- Unpack a successful `getCurrentPlayer`. -/
theorem getCurrentPlayer_eq (s : Game) (p : PlayerId)
    (h : s.getCurrentPlayer = some p) :
    s.status = "active" ∧ s.playerOrder ≠ []
      ∧ s.playerOrder.get? s.currentPlayerIndex = some p := by
  unfold Game.getCurrentPlayer at h
  by_cases hc : s.status ≠ "active" ∨ s.playerOrder = []
  · rw [if_pos hc] at h; exact absurd h (by simp)
  · rw [if_neg hc] at h
    push_neg at hc
    exact ⟨hc.1, hc.2, h⟩

/-- The skip-eliminated loop exits immediately when the current player
is alive. -/
theorem skipLoop_exit (n : Nat) (s : Game) (h : s.currentEliminated = false) :
    Game.skipLoop (n + 1) s = (s, false) := by
  unfold Game.skipLoop
  rw [if_neg (by simp [h])]

/-- C6 amended: when a successful `endTurn` wraps `currentPlayerIndex`
to 0 (here on a session with no eliminated player, so the skip loop does
not fire), the round counter increments by exactly 1 and `playerOrder`
is re-sorted ascending by live token count (ties decided by the random
comparator, abstracted as the oracle `r`) — but only the *new current
player's* TurnAction is reset; every other player keeps their previous
TurnAction until their own turn starts. -/
theorem endTurn_roundBoundary (s : Game) (p q0 : PlayerId)
    (r : PlayerId → PlayerId → Bool)
    (hcur : s.getCurrentPlayer = some p)
    (hwrap : (s.currentPlayerIndex + 1) % s.playerOrder.length = 0)
    (hq0 : (Game.sortPlayers (Game.orderBefore s r) s.playerOrder).head? = some q0)
    (hnoelim : ∀ q ∈ s.playerOrder, s.isPlayerEliminated q = false) :
    Game.endTurn s p r
      = ⟨true, "Turn ended.",
         { s with
           round := s.round + 1
           playerOrder := Game.sortPlayers (Game.orderBefore s r) s.playerOrder
           currentPlayerIndex := 0
           turnActions := fun q =>
             if q = q0 then some ⟨false, none, []⟩ else s.turnActions q }⟩
    ∧ (Game.sortPlayers (Game.orderBefore s r) s.playerOrder).Pairwise (countLe s)
    ∧ (Game.sortPlayers (Game.orderBefore s r) s.playerOrder).Perm s.playerOrder := by
  obtain ⟨hstat, hne, hidx⟩ := getCurrentPlayer_eq s p hcur
  have hperm : (Game.sortPlayers (Game.orderBefore s r) s.playerOrder).Perm s.playerOrder :=
    sortPlayers_perm _ _
  have hpair : (Game.sortPlayers (Game.orderBefore s r) s.playerOrder).Pairwise (countLe s) :=
    sortPlayers_pairwise _ _ (orderBefore_true_countLe s r) (orderBefore_false_countLe s r)
      (countLe_trans s) _
  refine ⟨?_, hpair, hperm⟩
  have hq0mem : q0 ∈ s.playerOrder :=
    hperm.mem_iff.mp (List.mem_of_mem_head? hq0)
  have hsne : Game.sortPlayers (Game.orderBefore s r) s.playerOrder ≠ [] := by
    intro hnil; rw [hnil] at hq0; exact Option.noConfusion hq0
  have hcur1 : Game.getCurrentPlayer
      { s with round := s.round + 1,
               playerOrder := Game.sortPlayers (Game.orderBefore s r) s.playerOrder,
               currentPlayerIndex := 0 } = some q0 := by
    unfold Game.getCurrentPlayer
    rw [if_neg (by simp [hstat, hsne])]
    show (Game.sortPlayers (Game.orderBefore s r) s.playerOrder).get? 0 = some q0
    rw [List.get?_zero]
    exact hq0
  have helim1 : Game.currentEliminated
      { s with round := s.round + 1,
               playerOrder := Game.sortPlayers (Game.orderBefore s r) s.playerOrder,
               currentPlayerIndex := 0 } = false := by
    unfold Game.currentEliminated
    rw [hcur1]
    exact hnoelim q0 hq0mem
  unfold Game.endTurn
  rw [if_neg (by simp [hcur])]
  simp only [hwrap, if_pos, reduceIte]
  rw [show 2 * (Game.sortPlayers (Game.orderBefore s r) s.playerOrder).length + 2
        = (2 * (Game.sortPlayers (Game.orderBefore s r) s.playerOrder).length + 1) + 1
      from rfl]
  rw [skipLoop_exit _ _ helim1]
  simp only []
  rw [hcur1]
  rfl

/-- C6 amended, witness: B ends the turn of `sRoundEnd` from index 1;
the order wraps, the round becomes 2, the order re-sorts to [B, A]
(B holds fewer monsters) and only B's TurnAction is reset — A's
`placedMonster` flag survives the boundary. -/
theorem endTurn_roundBoundary_witness :
    (sRoundEnd.getCurrentPlayer = some "B"
      ∧ (sRoundEnd.currentPlayerIndex + 1) % sRoundEnd.playerOrder.length = 0
      ∧ (Game.sortPlayers (Game.orderBefore sRoundEnd rconst)
          sRoundEnd.playerOrder).head? = some "B")
    ∧ (Game.endTurn sRoundEnd "B" rconst
        = ⟨true, "Turn ended.",
           { sRoundEnd with
             round := sRoundEnd.round + 1
             playerOrder := Game.sortPlayers (Game.orderBefore sRoundEnd rconst)
               sRoundEnd.playerOrder
             currentPlayerIndex := 0
             turnActions := fun q =>
               if q = "B" then some ⟨false, none, []⟩ else sRoundEnd.turnActions q }⟩
       ∧ (Game.sortPlayers (Game.orderBefore sRoundEnd rconst)
           sRoundEnd.playerOrder).Pairwise (countLe sRoundEnd)
       ∧ (Game.sortPlayers (Game.orderBefore sRoundEnd rconst)
           sRoundEnd.playerOrder).Perm sRoundEnd.playerOrder) :=
  ⟨⟨by decide, by decide, by decide⟩,
   endTurn_roundBoundary sRoundEnd "B" "B" rconst
     (by decide) (by decide) (by decide) (by decide)⟩

/-! ## C3 amended — dominance table and the contested square -/

/-- What `removeMonster` does when the owner and the monster exist. -/
theorem removeMonster_spec (s : Game) (mid : MonsterId) (pid : PlayerId)
    (pl : Player) (m : Monster)
    (hp : s.players pid = some pl)
    (hfind : pl.monsters.find? (fun mm => mm.id == mid) = some m) :
    Game.removeMonster s mid pid
      = { s with
          board :=
            if (s.board m.x m.y).map Monster.id = some mid then
              setCell s.board m.x m.y none
            else s.board
          players := fun q =>
            if q = pid then
              some { pl with
                       monsters := pl.monsters.eraseP (fun mm => mm.id == mid)
                       monstersLost := pl.monstersLost + 1 }
            else s.players q } := by
  simp only [Game.removeMonster, hp, hfind]

/-- C3 amended: for a collision of two distinct-owner monsters of
distinct types among {vampire, werewolf, ghost} — `mv` the arriving
monster (already written to the contested cell), `em` the defender
(still in its owner's roster at the contested coordinates) —
`handleConflict` removes exactly the instance of the dominated type
`lt` (per the spec table `specCombatLoser`) from its owner's roster and
increments that owner's loss count, and the winner's roster entry is
untouched; but the contested board cell keeps the winning token only
when the *defender* loses — when the arriving monster loses, its
removal clears the cell and the surviving winner is absent from the
board view. -/
theorem handleConflict_dominance (s : Game) (x y : Int) (mv em : Monster)
    (plA plB : Player) (lt : String)
    (hb : s.board x y = some mv)
    (howner : mv.owner ≠ em.owner)
    (hA : s.players mv.owner = some plA)
    (hfA : plA.monsters.find? (fun mm => mm.id == mv.id) = some mv)
    (hB : s.players em.owner = some plB)
    (hfB : plB.monsters.find? (fun mm => mm.id == em.id) = some em)
    (hmx : mv.x = x) (hmy : mv.y = y) (hex : em.x = x) (hey : em.y = y)
    (hid : mv.id ≠ em.id)
    (hlt : specCombatLoser mv.type em.type = some lt) :
    if lt = mv.type then
      Game.handleConflict s x y mv.owner em
        = { s with
            board := setCell s.board x y none
            players := fun q =>
              if q = mv.owner then
                some { plA with
                         monsters := plA.monsters.eraseP (fun mm => mm.id == mv.id)
                         monstersLost := plA.monstersLost + 1 }
              else s.players q }
    else
      Game.handleConflict s x y mv.owner em
        = { s with
            players := fun q =>
              if q = em.owner then
                some { plB with
                         monsters := plB.monsters.eraseP (fun mm => mm.id == em.id)
                         monstersLost := plB.monstersLost + 1 }
              else s.players q } := by
  have hremA : Game.removeMonster s mv.id mv.owner
      = { s with
          board := setCell s.board x y none
          players := fun q =>
            if q = mv.owner then
              some { plA with
                       monsters := plA.monsters.eraseP (fun mm => mm.id == mv.id)
                       monstersLost := plA.monstersLost + 1 }
            else s.players q } := by
    rw [removeMonster_spec s mv.id mv.owner plA mv hA hfA, hmx, hmy,
      if_pos (by rw [hb]; rfl)]
  have hremB : Game.removeMonster s em.id em.owner
      = { s with
          players := fun q =>
            if q = em.owner then
              some { plB with
                       monsters := plB.monsters.eraseP (fun mm => mm.id == em.id)
                       monstersLost := plB.monstersLost + 1 }
            else s.players q } := by
    rw [removeMonster_spec s em.id em.owner plB em hB hfB, hex, hey,
      if_neg (by rw [hb]; simp [hid])]
  unfold specCombatLoser at hlt
  simp only [Game.handleConflict, hb]
  rw [if_neg howner]
  split_ifs at hlt with h1 h2 h3
  · -- {vampire, werewolf}: the werewolf instance loses
    have hltw : lt = "werewolf" := ((Option.some.injEq _ _).mp hlt).symm
    subst hltw
    rcases h1 with ⟨ht1, ht2⟩ | ⟨ht1, ht2⟩
    · rw [ht1, ht2]; exact hremB
    · rw [ht1, ht2]; exact hremA
  · -- {werewolf, ghost}: the ghost instance loses
    have hltw : lt = "ghost" := ((Option.some.injEq _ _).mp hlt).symm
    subst hltw
    rcases h2 with ⟨ht1, ht2⟩ | ⟨ht1, ht2⟩
    · rw [ht1, ht2]; exact hremB
    · rw [ht1, ht2]; exact hremA
  · -- {ghost, vampire}: the vampire instance loses
    have hltw : lt = "vampire" := ((Option.some.injEq _ _).mp hlt).symm
    subst hltw
    rcases h3 with ⟨ht1, ht2⟩ | ⟨ht1, ht2⟩
    · rw [ht1, ht2]; exact hremB
    · rw [ht1, ht2]; exact hremA

/-- C3 amended, witness: in `sGhostDefends` the arriving vampire loses
to the defending ghost, so the theorem's then-branch applies: A's roster
loses the vampire, A's loss count increments, and the contested cell is
cleared. -/
theorem handleConflict_dominance_witness :
    (sGhostDefends.board 3 3 = some c3MoverVamp
      ∧ c3MoverVamp.owner ≠ c3ExistGhost.owner
      ∧ specCombatLoser c3MoverVamp.type c3ExistGhost.type = some "vampire")
    ∧ (if "vampire" = c3MoverVamp.type then
        Game.handleConflict sGhostDefends 3 3 c3MoverVamp.owner c3ExistGhost
          = { sGhostDefends with
              board := setCell sGhostDefends.board 3 3 none
              players := fun q =>
                if q = c3MoverVamp.owner then
                  some { Player.mk "A" "top" [c3MoverVamp] 0 with
                           monsters := (Player.mk "A" "top" [c3MoverVamp] 0).monsters.eraseP
                             (fun mm => mm.id == c3MoverVamp.id)
                           monstersLost := (Player.mk "A" "top" [c3MoverVamp] 0).monstersLost + 1 }
                else sGhostDefends.players q }
      else
        Game.handleConflict sGhostDefends 3 3 c3MoverVamp.owner c3ExistGhost
          = { sGhostDefends with
              players := fun q =>
                if q = c3ExistGhost.owner then
                  some { Player.mk "B" "bottom" [c3ExistGhost] 0 with
                           monsters := (Player.mk "B" "bottom" [c3ExistGhost] 0).monsters.eraseP
                             (fun mm => mm.id == c3ExistGhost.id)
                           monstersLost := (Player.mk "B" "bottom" [c3ExistGhost] 0).monstersLost + 1 }
                else sGhostDefends.players q }) :=
  ⟨⟨by decide, by decide, by decide⟩,
   handleConflict_dominance sGhostDefends 3 3 c3MoverVamp c3ExistGhost
     (Player.mk "A" "top" [c3MoverVamp] 0) (Player.mk "B" "bottom" [c3ExistGhost] 0) "vampire"
     (by decide) (by decide) (by decide) (by decide) (by decide) (by decide)
     (by decide) (by decide) (by decide) (by decide) (by decide) (by decide)⟩

/-- C7 amended, witness: B sits on the left edge of `sCorner` and may
place on the empty corner. -/
theorem placement_corner_rule_witness :
    sCorner.players "B" = some ⟨"B", "left", [], 0⟩
    ∧ (Game.isValidPlacement sCorner "B" 0 0
        = ((sCorner.board 0 0).isNone && ((Player.mk "B" "left" [] 0).edge == "top"
            || (Player.mk "B" "left" [] 0).edge == "left"))
       ∧ (["top", "bottom", "left", "right"].filter (fun e => Game.edgeClaims e 0 0))
         = ["top", "left"]) :=
  ⟨by decide, placement_corner_rule sCorner "B" ⟨"B", "left", [], 0⟩ (by decide)⟩
